import Mathlib

/-!
Formal model of the AdHawk MindLink eye-tracker adapter for PsychoPy ioHub
(files `psychopy/iohub/devices/eyetracker/hw/adhawk/helpers.py`,
`eyetracker.py` and `adhawkCalibrationGraphics.py`).

Modelling conventions:
* Python floats are modelled as exact numbers: `ℚ` for the state machine and
  coordinate code, `ℝ` for the trigonometric helper; numpy `nan` becomes the
  explicit constructor `NpVal.nan`.
* Vendor-SDK side effects are recorded as an explicit list of `ApiCall`
  values; asynchronous callbacks are delivered from explicit event traces.
* The gevent cooperative runtime is modelled by traces of event batches
  delivered at yield points, one tick per 50 ms heartbeat, so the 5 second
  calibration timeout becomes `timeoutTicks = 100` ticks.
-/

namespace Adhawk

/-! ## Geometry helpers (`helpers.py` and the coordinate conversion methods
of `eyetracker.py`) -/

/-- A numpy scalar that can be `nan`; all non-`nan` values are reals. -/
inductive NpVal where
  | nan : NpVal
  | val : ℝ → NpVal

/-- Two-argument arctangent, the mathematical function computed by
`np.arctan2 y x` on non-degenerate real inputs. -/
noncomputable def atan2 (y x : ℝ) : ℝ :=
  if 0 < x then Real.arctan (y / x)
  else if x < 0 then
    (if 0 ≤ y then Real.arctan (y / x) + Real.pi else Real.arctan (y / x) - Real.pi)
  else
    (if 0 < y then Real.pi / 2 else if y < 0 then -(Real.pi / 2) else 0)

/-- `EulerRotationOrder` is a Python `IntEnum` with members `XY = 0` and
`YX = 1`; since any integer can be passed for an `IntEnum` parameter, the
rotation order is embedded as `ℤ`. -/
def EulerRotationOrder.XY : ℤ := 0

/-- See `EulerRotationOrder.XY`. -/
def EulerRotationOrder.YX : ℤ := 1

/-- `helpers.vector_to_angles`: initialises both angles to `nan`, then
overwrites them when the rotation order is `YX` or `XY`. -/
noncomputable def vector_to_angles (xpos ypos zpos : ℝ) (rotation_order : ℤ) :
    NpVal × NpVal :=
  if rotation_order = EulerRotationOrder.YX then
    (NpVal.val (atan2 xpos (-zpos)),
     NpVal.val (atan2 ypos (Real.sqrt (xpos ^ 2 + zpos ^ 2))))
  else if rotation_order = EulerRotationOrder.XY then
    (NpVal.val (atan2 xpos (Real.sqrt (ypos ^ 2 + zpos ^ 2))),
     NpVal.val (atan2 ypos (-zpos)))
  else
    (NpVal.nan, NpVal.nan)

/-- Display coordinate bounds, the quadruple returned by
`display_device.getCoordBounds()` in the order (left, top, right, bottom). -/
structure CoordBounds where
  left : ℚ
  top : ℚ
  right : ℚ
  bottom : ℚ
deriving DecidableEq

/-- `EyeTracker._eyeTrackerToDisplayCoords`: converts a normalized AdHawk
gaze-in-screen position to display coordinates; `none` bounds model the
`self._display_device is None` defensive branch. -/
def eyeTrackerToDisplayCoords (display : Option CoordBounds) (p : ℚ × ℚ) : ℚ × ℚ :=
  match display with
  | none => (0, 0)
  | some b =>
    let w := b.right - b.left
    let h := b.top - b.bottom
    (w * (p.1 - 1/2), h * (1/2 - p.2))

/-- `EyeTracker._displayToEyeTrackerCoords`: converts a display point to the
normalized AdHawk gaze-in-screen coordinate space.  Note the source computes
`(display_x + 0.5) / w` for the x coordinate. -/
def displayToEyeTrackerCoords (display : Option CoordBounds) (display_x display_y : ℚ) :
    ℚ × ℚ :=
  match display with
  | none => (0, 0)
  | some b =>
    let w := b.right - b.left
    let h := b.top - b.bottom
    ((display_x + 1/2) / w, 1/2 - display_y / h)

/-- A symmetric display: bounds (left, top, right, bottom) = (-1, 1, 1, -1). -/
def symBounds : CoordBounds := ⟨-1, 1, 1, -1⟩

/-- Claim C2: converting an in-bounds display point to normalized eye-tracker
coordinates and back is claimed to be the identity.  Evaluating the code at
the in-bounds display point (1/2, 1/2) with bounds (-1, 1, 1, -1) yields
(0, 1/2): the y coordinate round-trips but the x coordinate does not, because
`_displayToEyeTrackerCoords` computes `(display_x + 0.5) / w` instead of the
inverse `display_x / w + 0.5` of the forward map `w * (gaze_x - 0.5)`.  The
error is 1/2 of a display width unit, far beyond floating-point tolerance. -/
theorem C2_roundtrip_fails_on_x :
    eyeTrackerToDisplayCoords (some symBounds)
        (displayToEyeTrackerCoords (some symBounds) (1/2) (1/2)) = (0, 1/2)
    ∧ ((0 : ℚ), (1/2 : ℚ)) ≠ ((1/2 : ℚ), (1/2 : ℚ))
    ∧ symBounds.left ≤ 1/2 ∧ (1/2 : ℚ) ≤ symBounds.right
    ∧ symBounds.bottom ≤ 1/2 ∧ (1/2 : ℚ) ≤ symBounds.top := by
  refine ⟨?_, ?_, ?_, ?_, ?_, ?_⟩ <;>
    norm_num [eyeTrackerToDisplayCoords, displayToEyeTrackerCoords, symBounds,
      Prod.ext_iff]

/-- Claim C6: for every input vector, `vector_to_angles` with rotation order
`XY` returns azimuth `atan2 x (sqrt (y^2+z^2))` and elevation `atan2 y (-z)`,
and with rotation order `YX` returns azimuth `atan2 x (-z)` and elevation
`atan2 y (sqrt (x^2+z^2))`, in radians.  The function is pure by
construction, so it has no side effects. -/
theorem C6_vector_to_angles_formulas (x y z : ℝ) :
    vector_to_angles x y z EulerRotationOrder.XY
      = (NpVal.val (atan2 x (Real.sqrt (y ^ 2 + z ^ 2))), NpVal.val (atan2 y (-z)))
    ∧ vector_to_angles x y z EulerRotationOrder.YX
      = (NpVal.val (atan2 x (-z)), NpVal.val (atan2 y (Real.sqrt (x ^ 2 + z ^ 2)))) := by
  constructor <;>
    simp [vector_to_angles, EulerRotationOrder.XY, EulerRotationOrder.YX]

/-- Claim C9: for every input vector and every rotation-order value that is
neither `XY` nor `YX`, `vector_to_angles` returns the initial `(nan, nan)`
pair; being a total function of its arguments it raises no error. -/
theorem C9_vector_to_angles_unknown_order (x y z : ℝ) (ro : ℤ)
    (h1 : ro ≠ EulerRotationOrder.XY) (h2 : ro ≠ EulerRotationOrder.YX) :
    vector_to_angles x y z ro = (NpVal.nan, NpVal.nan) := by
  simp [vector_to_angles, h1, h2]

/-- Witness for C9 at the concrete rotation-order value 2. -/
theorem C9_witness :
    ((2 : ℤ) ≠ EulerRotationOrder.XY ∧ (2 : ℤ) ≠ EulerRotationOrder.YX)
    ∧ vector_to_angles 1 2 3 2 = (NpVal.nan, NpVal.nan) :=
  ⟨⟨by decide, by decide⟩,
   C9_vector_to_angles_unknown_order 1 2 3 2 (by decide) (by decide)⟩

/-! ## The `EyeTracker` device state machine (`eyetracker.py`)

Vendor-API side effects are recorded as `ApiCall` values.  `adhawkapi`
packet-type and event constants are opaque enums; they are embedded as
distinct natural numbers. -/

/-- `adhawkapi.PacketType.EXTENDED_GAZE`, the primary gaze channel. -/
def EXTENDED_GAZE : ℕ := 0

/-- `adhawkapi.PacketType.PER_EYE_GAZE`. -/
def PER_EYE_GAZE : ℕ := 1

/-- `adhawkapi.PacketType.GAZE_IN_SCREEN`. -/
def GAZE_IN_SCREEN : ℕ := 2

/-- `adhawkapi.PacketType.PUPIL_DIAMETER`. -/
def PUPIL_DIAMETER : ℕ := 3

/-- `adhawkapi.PacketType.EVENTS`, the generic event channel. -/
def EVENTS : ℕ := 4

/-- `adhawkapi.Events.BLINK`, the event kind carried on the generic
event channel for blinks. -/
def BLINK : ℕ := 5

/-- A call made by the adapter into the vendor SDK or the logger. -/
inductive ApiCall where
  | registerStreamHandler (packet : ℕ)
  | apiStart
  | setStreamControl (packet : ℕ)
  | setEventControl (bit : ℕ)
  | pollWait
  | shutdownCall
  | startCameraCapture
  | stopCameraCapture
  | startScreenTrackingCall
  | stopScreenTrackingCall
  | registerScreenBoardCall (w h : ℚ)
  | warnMarkersNotDefined
  | warnConnectFailed
deriving DecidableEq

/-- The native binocular sample tuple built by `EyeTracker._handle_gaze_data`:
the new primary values together with the cached gaze-in-screen position,
per-eye gaze vectors and pupil diameters. -/
structure NativeSample where
  timestamp : ℚ
  vec_x : ℚ
  vec_y : ℚ
  vec_z : ℚ
  vergence : ℚ
  gaze_in_screen : ℚ × ℚ
  binocular : ℚ × ℚ × ℚ × ℚ × ℚ × ℚ
  pupil : ℚ × ℚ
deriving DecidableEq

/-- The mutable state of the `EyeTracker` device object. -/
structure TrackerState where
  connected : Bool := false
  camera_started : Bool := false
  screen_tracking : Bool := false
  is_reporting_events : Bool := false
  display_bounds : Option CoordBounds := none
  screen_size : Option (ℚ × ℚ) := none
  aruco_empty : Bool := true
  latest_sample_timestamp : ℚ := 0
  latest_gaze_in_screen : ℚ × ℚ := (0, 0)
  latest_binocular_gaze_data : ℚ × ℚ × ℚ × ℚ × ℚ × ℚ := (0, 0, 0, 0, 0, 0)
  latest_pupil_diameter_data : ℚ × ℚ := (0, 0)
  latest_sample : Option NativeSample := none
  latest_gaze_position : Option (ℚ × ℚ) := none
deriving DecidableEq

/-- `EyeTracker.isConnected`. -/
def isConnected (s : TrackerState) : Bool := s.connected

/-- `EyeTracker.isRecordingEnabled`. -/
def isRecordingEnabled (s : TrackerState) : Bool := s.is_reporting_events

/-- `EyeTracker.getLastSample`. -/
def getLastSample (s : TrackerState) : Option NativeSample := s.latest_sample

/-- `EyeTracker.getLastGazePosition`. -/
def getLastGazePosition (s : TrackerState) : Option (ℚ × ℚ) := s.latest_gaze_position

/-- `EyeTracker._handle_connect`: on a no-error callback, sets the stream
controls (only when screen tracking is enabled in the configuration) and
flips `_connected`; on an error it only logs. -/
def handle_connect (s : TrackerState) (error : Bool) : TrackerState × List ApiCall :=
  if !error then
    ({s with connected := true},
     if s.screen_tracking then
       [ApiCall.setStreamControl EXTENDED_GAZE, ApiCall.setStreamControl PER_EYE_GAZE,
        ApiCall.setStreamControl GAZE_IN_SCREEN, ApiCall.setStreamControl PUPIL_DIAMETER,
        ApiCall.setEventControl BLINK]
     else [])
  else (s, [])

/-- `EyeTracker.setConnectionState`.  The connect callback outcome delivered
during the bounded polling wait is a parameter: `none` means no callback
arrived before the 1 s max wait, `some error` that `_handle_connect error`
ran.  Returns the new state, the vendor calls made, and the returned
`self._connected` value. -/
def setConnectionState (s : TrackerState) (enable : Bool) (connectCb : Option Bool) :
    TrackerState × List ApiCall × Bool :=
  if enable && !s.connected then
    let pre := [ApiCall.registerStreamHandler EXTENDED_GAZE,
                ApiCall.registerStreamHandler PER_EYE_GAZE,
                ApiCall.registerStreamHandler GAZE_IN_SCREEN,
                ApiCall.registerStreamHandler PUPIL_DIAMETER,
                ApiCall.registerStreamHandler EVENTS,
                ApiCall.apiStart]
    let cbRes := match connectCb with
      | some error => handle_connect s error
      | none => (s, [])
    let warn := if !cbRes.1.connected then [ApiCall.warnConnectFailed] else []
    (cbRes.1, pre ++ [ApiCall.pollWait] ++ cbRes.2 ++ warn, cbRes.1.connected)
  else if !enable && s.connected then
    let stopCalls :=
      if s.screen_tracking then
        [ApiCall.stopScreenTrackingCall, ApiCall.stopCameraCapture]
      else []
    ({s with connected := false}, stopCalls ++ [ApiCall.shutdownCall], false)
  else
    (s, [], s.connected)

/-- `EyeTracker._start_camera`: a no-op when the camera is already started;
otherwise issues `start_camera_capture` and polls until the response callback
sets `_camera_started` or the max wait elapses.  `cameraCb` is the
acknowledgement processed by `_handle_camera_start_response` during the wait
(`none`: no response arrived, `some ok`: response with `ok` meaning the ack
code equalled `SUCCESS`). -/
def start_camera (s : TrackerState) (cameraCb : Option Bool) :
    TrackerState × List ApiCall :=
  if !s.camera_started then
    let s' := match cameraCb with
      | some ok => {s with camera_started := ok}
      | none => s
    (s', [ApiCall.startCameraCapture, ApiCall.pollWait])
  else (s, [])

/-- `EyeTracker._stop_camera`: fire-and-forget; note the source does not
reset the `_camera_started` flag here. -/
def stop_camera (s : TrackerState) : TrackerState × List ApiCall :=
  (s, [ApiCall.stopCameraCapture])

/-- `EyeTracker._start_screen_tracking`: starts the camera first if needed,
then issues `start_screen_tracking`. -/
def start_screen_tracking (s : TrackerState) (cameraCb : Option Bool) :
    TrackerState × List ApiCall :=
  if !s.camera_started then
    let r := start_camera s cameraCb
    (r.1, r.2 ++ [ApiCall.startScreenTrackingCall])
  else (s, [ApiCall.startScreenTrackingCall])

/-- `EyeTracker._stop_screen_tracking`. -/
def stop_screen_tracking (s : TrackerState) : TrackerState × List ApiCall :=
  (s, [ApiCall.stopScreenTrackingCall])

/-- `EyeTracker._initiate_screen_tracking`: with an empty marker table it
logs a warning, resets `_aruco_info` to the empty default and returns without
touching the vendor API; otherwise it registers the screen board, reading
`self._screen_size` (which is `None`, raising `TypeError`, when
`generate_markers` has not stored it). -/
def initiate_screen_tracking (s : TrackerState) :
    Except String (TrackerState × List ApiCall) :=
  if s.aruco_empty then
    Except.ok ({s with aruco_empty := true}, [ApiCall.warnMarkersNotDefined])
  else
    match s.screen_size with
    | none => Except.error "TypeError: _screen_size is None"
    | some wh => Except.ok (s, [ApiCall.registerScreenBoardCall wh.1 wh.2])

/-- The state produced by the stop branch of `EyeTracker.setRecordingState`:
latest sample and latest gaze position cleared, event reporting disabled. -/
def recStopState (s : TrackerState) : TrackerState :=
  {s with is_reporting_events := false, latest_sample := none,
          latest_gaze_position := none}

/-- `EyeTracker.setRecordingState`: the start branch requires
`recording and self._connected and self._screen_tracking`; every other call
takes the stop branch.  `cameraCb` as in `start_camera`. -/
def setRecordingState (s : TrackerState) (recording : Bool) (cameraCb : Option Bool) :
    Except String (TrackerState × List ApiCall) :=
  if recording && s.connected && s.screen_tracking then
    let r1 := start_camera s cameraCb
    match initiate_screen_tracking r1.1 with
    | Except.error e => Except.error e
    | Except.ok r2 =>
      let r3 := start_screen_tracking r2.1 cameraCb
      Except.ok ({r3.1 with is_reporting_events := true}, r1.2 ++ r2.2 ++ r3.2)
  else
    Except.ok (recStopState s,
      [ApiCall.stopCameraCapture, ApiCall.stopScreenTrackingCall])

/-! ## The stream aggregator: per-channel callbacks and the events they
forward to the host buffer -/

/-- A record forwarded to the host buffer by `_handleNativeEvent`: either the
native binocular sample tuple or a blink-end pair. -/
inductive Emitted where
  | sample (s : NativeSample)
  | blinkEnd (timestamp duration : ℚ)
deriving DecidableEq

/-- `EyeTracker._handleNativeEvent`: forwards the record to the host buffer
only while event reporting is on. -/
def handleNativeEvent (s : TrackerState) (e : Emitted) : Option Emitted :=
  if s.is_reporting_events then some e else none

/-- `EyeTracker._handle_gaze_data` (primary `EXTENDED_GAZE` channel): stores
the timestamp and builds the sample tuple from the new primary values plus
the currently cached values of the other channels. -/
def handle_gaze_data (s : TrackerState) (timestamp vec_x vec_y vec_z vergence : ℚ) :
    TrackerState × Option Emitted :=
  let s' := {s with latest_sample_timestamp := timestamp}
  (s', handleNativeEvent s' (Emitted.sample
    { timestamp := timestamp, vec_x := vec_x, vec_y := vec_y, vec_z := vec_z,
      vergence := vergence,
      gaze_in_screen := s'.latest_gaze_in_screen,
      binocular := s'.latest_binocular_gaze_data,
      pupil := s'.latest_pupil_diameter_data }))

/-- `EyeTracker._handle_binocular_gaze_data` (`PER_EYE_GAZE` channel). -/
def handle_binocular_gaze_data (s : TrackerState) (rx ry rz lx ly lz : ℚ) :
    TrackerState :=
  {s with latest_binocular_gaze_data := (rx, ry, rz, lx, ly, lz)}

/-- `EyeTracker._handle_gaze_in_screen_data` (`GAZE_IN_SCREEN` channel):
converts through `_eyeTrackerToDisplayCoords` before caching. -/
def handle_gaze_in_screen_data (s : TrackerState) (xpos ypos : ℚ) : TrackerState :=
  {s with latest_gaze_in_screen := eyeTrackerToDisplayCoords s.display_bounds (xpos, ypos)}

/-- `EyeTracker._handle_pupil_diameter` (`PUPIL_DIAMETER` channel). -/
def handle_pupil_diameter (s : TrackerState) (right_pupil left_pupil : ℚ) :
    TrackerState :=
  {s with latest_pupil_diameter_data := (right_pupil, left_pupil)}

/-- `EyeTracker._handle_events` (generic `EVENTS` channel): forwards a
blink-end record when the event kind is `BLINK`, ignores other kinds. -/
def handle_events (s : TrackerState) (event_type : ℕ) (timestamp arg : ℚ) :
    TrackerState × Option Emitted :=
  if event_type = BLINK then (s, handleNativeEvent s (Emitted.blinkEnd timestamp arg))
  else (s, none)

/-- One callback delivered by the vendor transport on one of the five
registered channels. -/
inductive Callback where
  | gaze (timestamp vec_x vec_y vec_z vergence : ℚ)
  | perEyeGaze (timestamp rx ry rz lx ly lz : ℚ)
  | gazeInScreen (timestamp xpos ypos : ℚ)
  | pupilDiameter (timestamp right_pupil left_pupil : ℚ)
  | deviceEvent (event_type : ℕ) (timestamp arg : ℚ)
deriving DecidableEq

/-- Dispatch one callback to the registered stream handler. -/
def handleStreamCallback (s : TrackerState) : Callback → TrackerState × Option Emitted
  | Callback.gaze ts vx vy vz vg => handle_gaze_data s ts vx vy vz vg
  | Callback.perEyeGaze _ rx ry rz lx ly lz =>
      (handle_binocular_gaze_data s rx ry rz lx ly lz, none)
  | Callback.gazeInScreen _ x y => (handle_gaze_in_screen_data s x y, none)
  | Callback.pupilDiameter _ r l => (handle_pupil_diameter s r l, none)
  | Callback.deviceEvent et ts arg => handle_events s et ts arg

/-- Run a sequence of channel callbacks (the cooperative runtime delivers
them one at a time); position `i` of the output is what callback `i`
forwarded to the host buffer. -/
def processTrace (s : TrackerState) : List Callback → List (Option Emitted)
  | [] => []
  | cb :: rest =>
    let r := handleStreamCallback s cb
    r.2 :: processTrace r.1 rest

/-- The converted value of the most recent gaze-in-screen callback in the
list, starting from default `dflt` (specification vocabulary for C5). -/
def lastGazeInScreenConv (bounds : Option CoordBounds) (dflt : ℚ × ℚ) :
    List Callback → ℚ × ℚ
  | [] => dflt
  | Callback.gazeInScreen _ x y :: rest =>
      lastGazeInScreenConv bounds (eyeTrackerToDisplayCoords bounds (x, y)) rest
  | _ :: rest => lastGazeInScreenConv bounds dflt rest

/-- The most recent per-eye-gaze callback value in the list, starting from
default `dflt` (specification vocabulary for C5). -/
def lastPerEyeGaze (dflt : ℚ × ℚ × ℚ × ℚ × ℚ × ℚ) :
    List Callback → ℚ × ℚ × ℚ × ℚ × ℚ × ℚ
  | [] => dflt
  | Callback.perEyeGaze _ rx ry rz lx ly lz :: rest =>
      lastPerEyeGaze (rx, ry, rz, lx, ly, lz) rest
  | _ :: rest => lastPerEyeGaze dflt rest

/-- The most recent pupil-diameter callback value in the list, starting from
default `dflt` (specification vocabulary for C5). -/
def lastPupil (dflt : ℚ × ℚ) : List Callback → ℚ × ℚ
  | [] => dflt
  | Callback.pupilDiameter _ r l :: rest => lastPupil (r, l) rest
  | _ :: rest => lastPupil dflt rest

/-- The device state right after construction and recording start: the
channel caches hold the zero defaults initialised in `__init__`, and event
reporting is on. -/
def initStreamState (bounds : Option CoordBounds) : TrackerState :=
  { connected := true, is_reporting_events := true, display_bounds := bounds }

lemma handle_events_state (s : TrackerState) (et : ℕ) (ts arg : ℚ) :
    (handle_events s et ts arg).1 = s := by
  unfold handle_events; split <;> rfl

lemma processTrace_gaze_emission (cbs : List Callback) :
    ∀ (s : TrackerState) (i : ℕ) (ts vx vy vz vg : ℚ),
      s.is_reporting_events = true →
      cbs[i]? = some (Callback.gaze ts vx vy vz vg) →
      (processTrace s cbs)[i]? = some (some (Emitted.sample
        { timestamp := ts, vec_x := vx, vec_y := vy, vec_z := vz, vergence := vg,
          gaze_in_screen :=
            lastGazeInScreenConv s.display_bounds s.latest_gaze_in_screen (cbs.take i),
          binocular := lastPerEyeGaze s.latest_binocular_gaze_data (cbs.take i),
          pupil := lastPupil s.latest_pupil_diameter_data (cbs.take i) })) := by
  induction cbs with
  | nil => intro s i ts vx vy vz vg hrep hget; simp at hget
  | cons cb rest ih =>
    intro s i ts vx vy vz vg hrep hget
    cases i with
    | zero =>
      simp at hget
      subst hget
      simp [processTrace, handleStreamCallback, handle_gaze_data, handleNativeEvent,
        hrep, lastGazeInScreenConv, lastPerEyeGaze, lastPupil]
    | succ i =>
      simp at hget
      cases cb with
      | gaze tsp vxp vyp vzp vgp =>
        have h := ih {s with latest_sample_timestamp := tsp} i ts vx vy vz vg hrep hget
        simpa [processTrace, handleStreamCallback, handle_gaze_data,
          lastGazeInScreenConv, lastPerEyeGaze, lastPupil] using h
      | perEyeGaze tsp rx ry rz lx ly lz =>
        have h := ih (handle_binocular_gaze_data s rx ry rz lx ly lz) i ts vx vy vz vg
          (by simp [handle_binocular_gaze_data, hrep]) hget
        simpa [processTrace, handleStreamCallback, handle_binocular_gaze_data,
          lastGazeInScreenConv, lastPerEyeGaze, lastPupil] using h
      | gazeInScreen tsp x y =>
        have h := ih (handle_gaze_in_screen_data s x y) i ts vx vy vz vg
          (by simp [handle_gaze_in_screen_data, hrep]) hget
        simpa [processTrace, handleStreamCallback, handle_gaze_in_screen_data,
          lastGazeInScreenConv, lastPerEyeGaze, lastPupil] using h
      | pupilDiameter tsp r l =>
        have h := ih (handle_pupil_diameter s r l) i ts vx vy vz vg
          (by simp [handle_pupil_diameter, hrep]) hget
        simpa [processTrace, handleStreamCallback, handle_pupil_diameter,
          lastGazeInScreenConv, lastPerEyeGaze, lastPupil] using h
      | deviceEvent et tsp arg =>
        have h := ih s i ts vx vy vz vg hrep hget
        simpa [processTrace, handleStreamCallback, handle_events_state,
          lastGazeInScreenConv, lastPerEyeGaze, lastPupil] using h

/-- Claim C5: for every sequence of channel callbacks, the sample record
built on a primary-gaze callback combines the new primary values with
exactly the most recent value received on each of the gaze-in-screen
(converted through `_eyeTrackerToDisplayCoords`), per-eye-gaze and
pupil-diameter channels strictly before that callback, or the initial zero
defaults if none — never a value from a later callback (`cbs.take i` is
exactly the part of the trace strictly before callback `i`). -/
theorem C5_primary_sample_uses_latest_prior (bounds : Option CoordBounds)
    (cbs : List Callback) (i : ℕ) (ts vx vy vz vg : ℚ)
    (hget : cbs[i]? = some (Callback.gaze ts vx vy vz vg)) :
    (processTrace (initStreamState bounds) cbs)[i]? = some (some (Emitted.sample
      { timestamp := ts, vec_x := vx, vec_y := vy, vec_z := vz, vergence := vg,
        gaze_in_screen := lastGazeInScreenConv bounds (0, 0) (cbs.take i),
        binocular := lastPerEyeGaze (0, 0, 0, 0, 0, 0) (cbs.take i),
        pupil := lastPupil (0, 0) (cbs.take i) })) :=
  processTrace_gaze_emission cbs (initStreamState bounds) i ts vx vy vz vg rfl hget

/-- Witness for C5: a gaze-in-screen callback followed by a primary gaze
callback; the emitted sample carries the converted gaze-in-screen value. -/
theorem C5_witness :
    [Callback.gazeInScreen 1 (1/2) (1/2),
     Callback.gaze 2 3 4 5 6][1]? = some (Callback.gaze 2 3 4 5 6)
    ∧ (processTrace (initStreamState (some symBounds))
        [Callback.gazeInScreen 1 (1/2) (1/2),
         Callback.gaze 2 3 4 5 6])[1]? = some (some (Emitted.sample
      { timestamp := 2, vec_x := 3, vec_y := 4, vec_z := 5, vergence := 6,
        gaze_in_screen := lastGazeInScreenConv (some symBounds) (0, 0)
          ([Callback.gazeInScreen 1 (1/2) (1/2),
            Callback.gaze 2 3 4 5 6].take 1),
        binocular := lastPerEyeGaze (0, 0, 0, 0, 0, 0)
          ([Callback.gazeInScreen 1 (1/2) (1/2),
            Callback.gaze 2 3 4 5 6].take 1),
        pupil := lastPupil (0, 0)
          ([Callback.gazeInScreen 1 (1/2) (1/2),
            Callback.gaze 2 3 4 5 6].take 1) })) :=
  ⟨rfl, C5_primary_sample_uses_latest_prior (some symBounds) _ 1 2 3 4 5 6 rfl⟩

/-- Claim C7: `setConnectionState(True)` while already connected performs no
vendor call at all (no handler registration, no connect request, no polling
wait) and returns the existing connected state; `setConnectionState(False)`
while already disconnected performs no shutdown and returns false. -/
theorem C7_setConnectionState_idempotent (s : TrackerState) (connectCb : Option Bool) :
    (s.connected = true → setConnectionState s true connectCb = (s, [], true))
    ∧ (s.connected = false → setConnectionState s false connectCb = (s, [], false)) := by
  constructor <;> intro h <;> simp [setConnectionState, h]

/-- Witness for C7 at a connected and at a disconnected state. -/
theorem C7_witness :
    ((initStreamState none).connected = true
      ∧ setConnectionState (initStreamState none) true none = (initStreamState none, [], true))
    ∧ (({} : TrackerState).connected = false
      ∧ setConnectionState {} false none = ({}, [], false)) :=
  ⟨⟨rfl, (C7_setConnectionState_idempotent (initStreamState none) none).1 rfl⟩,
   ⟨rfl, (C7_setConnectionState_idempotent {} none).2 rfl⟩⟩

/-- Claim C8: `_initiate_screen_tracking` with an empty marker table only
logs a warning: it returns normally (no exception), makes no
`register_screen_board` call, starts no screen tracking, and leaves the
state unchanged. -/
theorem C8_empty_marker_table_no_op (s : TrackerState) (h : s.aruco_empty = true) :
    initiate_screen_tracking s = Except.ok (s, [ApiCall.warnMarkersNotDefined])
    ∧ (∀ w hgt : ℚ, ApiCall.registerScreenBoardCall w hgt ∉ [ApiCall.warnMarkersNotDefined])
    ∧ ApiCall.startScreenTrackingCall ∉ [ApiCall.warnMarkersNotDefined] := by
  refine ⟨?_, by simp, by simp⟩
  cases s
  simp_all [initiate_screen_tracking]

/-- Witness for C8 at the default (empty marker table) state. -/
theorem C8_witness :
    ({} : TrackerState).aruco_empty = true
    ∧ initiate_screen_tracking {} = Except.ok ({}, [ApiCall.warnMarkersNotDefined]) :=
  ⟨rfl, (C8_empty_marker_table_no_op {} rfl).1⟩

/-- Claim C10: every call to `setRecordingState` that takes the stop branch
(`recording=False`, or no connected device, or screen tracking disabled)
clears the latest-sample and latest-gaze-position state, so `getLastSample`
and `getLastGazePosition` return `None` immediately afterwards. -/
theorem C10_stop_path_clears_latest (s : TrackerState) (recording : Bool)
    (cameraCb : Option Bool)
    (h : recording = false ∨ s.connected = false ∨ s.screen_tracking = false) :
    setRecordingState s recording cameraCb
      = Except.ok (recStopState s,
          [ApiCall.stopCameraCapture, ApiCall.stopScreenTrackingCall])
    ∧ getLastSample (recStopState s) = none
    ∧ getLastGazePosition (recStopState s) = none := by
  refine ⟨?_, rfl, rfl⟩
  rcases h with h | h | h <;> simp [setRecordingState, h]

/-- Witness for C10: a connected device without screen tracking, recording
being switched on, still takes the stop branch. -/
theorem C10_witness :
    (true = false ∨ (initStreamState none).connected = false
      ∨ (initStreamState none).screen_tracking = false)
    ∧ (setRecordingState (initStreamState none) true none
        = Except.ok (recStopState (initStreamState none),
            [ApiCall.stopCameraCapture, ApiCall.stopScreenTrackingCall])
      ∧ getLastSample (recStopState (initStreamState none)) = none
      ∧ getLastGazePosition (recStopState (initStreamState none)) = none) :=
  ⟨Or.inr (Or.inr rfl),
   C10_stop_path_clears_latest (initStreamState none) true none (Or.inr (Or.inr rfl))⟩

/-- The C1 scenario state: device connected, screen tracking disabled in the
configuration. -/
def connectedNoScreen : TrackerState := {connected := true, screen_tracking := false}

/-- Claim C1 (evaluation at the failing input): with
`enable_screen_tracking=False` and a connected device,
`setRecordingState(True)` takes the stop branch of the source, so
`isRecordingEnabled()` becomes false and `_handleNativeEvent` forwards
nothing — binocular-sample and blink forwarding are not left active, contrary
to the claim and to the class docstring. -/
theorem C1_recording_disabled_without_screen_tracking :
    setRecordingState connectedNoScreen true (some true)
      = Except.ok (recStopState connectedNoScreen,
          [ApiCall.stopCameraCapture, ApiCall.stopScreenTrackingCall])
    ∧ isRecordingEnabled (recStopState connectedNoScreen) = false
    ∧ (∀ e : Emitted, handleNativeEvent (recStopState connectedNoScreen) e = none) := by
  refine ⟨rfl, rfl, fun e => rfl⟩

/-! ## The calibration state machine (`adhawkCalibrationGraphics.py`)

`runCalibration` is a blocking procedure whose polling loops yield to the
cooperative runtime once per 50 ms heartbeat.  Time is modelled in heartbeat
ticks (`time.perf_counter()` is strictly positive, so tick counting starts at
1 for the first yield); the 5 s timeout is `timeoutTicks = 100` ticks.  At
each yield point one batch of externally generated events (key presses
dispatched by the message pump, vendor callbacks) is delivered; the trace of
batches is the observation horizon, and a run that has not returned when the
trace is exhausted yields `retval = none`. -/

/-- `adhawkapi.AckCodes.SUCCESS`. -/
def SUCCESS : ℕ := 0

/-- The 5 second timeout of `AdhawkPsychopyCalibrationGraphics`, in 50 ms
heartbeat ticks. -/
def timeoutTicks : ℕ := 100

/-- A message in `self._msg_queue`; only these two strings are ever
enqueued by `_handleEvent`. -/
inductive CalMsg where
  | space
  | quit
deriving DecidableEq

/-- The mutable fields of `AdhawkPsychopyCalibrationGraphics` used by
`runCalibration`; `timeout_time_start = 0` is the unset (falsy) value. -/
structure CalibState where
  autotune_ended : Bool := false
  calibration_ended : Bool := false
  autotune_successful : Bool := false
  calibration_successful : Bool := false
  timeout_time_start : ℕ := 0
  msg_queue : List CalMsg := []
deriving DecidableEq

/-- `AdhawkPsychopyCalibrationGraphics._should_stop`: false while no
cancellation timestamp is set, otherwise true once strictly more than
`timeout` has elapsed since it. -/
def should_stop (now : ℕ) (s : CalibState) : Bool :=
  if s.timeout_time_start = 0 then false
  else decide (now - s.timeout_time_start > timeoutTicks)

/-- `AdhawkPsychopyCalibrationGraphics._handleEvent` for a keyboard-press
event: space enqueues the proceed message, escape records the cancellation
timestamp and enqueues the quit message, any other key is ignored. -/
def handleKeyPress (now : ℕ) (s : CalibState) (key : String) : CalibState :=
  if key = " " ∨ key = "space" then
    {s with msg_queue := s.msg_queue ++ [CalMsg.space]}
  else if key = "escape" then
    {s with timeout_time_start := now, msg_queue := s.msg_queue ++ [CalMsg.quit]}
  else s

/-- `AdhawkPsychopyCalibrationGraphics._handleEvents` for a
`PROCEDURE_ENDED` callback: the first such callback ends the autotune phase
(successfully iff the ack is `SUCCESS`), later ones end the calibration
phase. -/
def handleProcedureEnded (s : CalibState) (ack : ℕ) : CalibState :=
  if !s.autotune_ended then
    if ack ≠ SUCCESS then {s with autotune_ended := true}
    else {s with autotune_successful := true, autotune_ended := true}
  else
    if ack ≠ SUCCESS then {s with calibration_ended := true}
    else {s with calibration_successful := true, calibration_ended := true}

/-- `AdhawkPsychopyCalibrationGraphics._handleCalibrationGuiResponse`: a
non-success acknowledgement of an autotune/calibration request ends both
phases without success. -/
def handleCalibrationGuiResponse (s : CalibState) (ack : ℕ) : CalibState :=
  if ack ≠ SUCCESS then {s with autotune_ended := true, calibration_ended := true}
  else s

/-- An externally generated event delivered at a yield point: a keyboard
press dispatched through `_handleEvent`, a `PROCEDURE_ENDED` event on the
vendor event channel, or the acknowledgement callback of an
`autotune_gui`/`start_calibration_gui` request. -/
inductive CalEvent where
  | keyPress (key : String)
  | procedureEnded (ack : ℕ)
  | guiResponse (ack : ℕ)
deriving DecidableEq

/-- The calibration object state together with ghost protocol-tracking
fields: `procPending`/`guiPending` record whether a `PROCEDURE_ENDED` event
or a request acknowledgement is currently owed by the device, and
`protocolOk` becomes false (and stays false) as soon as the device sends a
response it does not owe — i.e. on traces a real device cannot produce. -/
structure CalRun where
  cal : CalibState
  procPending : Bool := false
  guiPending : Bool := false
  protocolOk : Bool := true
deriving DecidableEq

/-- Deliver one event: the handler runs on the calibration state, and the
ghost fields track the request/response protocol.  A failed request
acknowledgement means the procedure never started, so no `PROCEDURE_ENDED`
is owed after it. -/
def deliverEvent (now : ℕ) (r : CalRun) : CalEvent → CalRun
  | CalEvent.keyPress k => {r with cal := handleKeyPress now r.cal k}
  | CalEvent.procedureEnded ack =>
      {r with cal := handleProcedureEnded r.cal ack,
              procPending := false,
              protocolOk := r.protocolOk && r.procPending}
  | CalEvent.guiResponse ack =>
      {r with cal := handleCalibrationGuiResponse r.cal ack,
              guiPending := false,
              procPending := r.procPending && decide (ack = SUCCESS),
              protocolOk := r.protocolOk && r.guiPending}

/-- Deliver a batch of events at one yield point, in order. -/
def deliverBatch (now : ℕ) (r : CalRun) (batch : List CalEvent) : CalRun :=
  batch.foldl (deliverEvent now) r

/-- Ghost bookkeeping for issuing `autotune_gui` or `start_calibration_gui`:
the device now owes one acknowledgement and (if the request is acked
successfully) one `PROCEDURE_ENDED`. -/
def issueRequest (r : CalRun) : CalRun :=
  {r with procPending := true, guiPending := true}

/-- `_getNextMsg` popping the queue down to `rest`. -/
def popMsg (r : CalRun) (rest : List CalMsg) : CalRun :=
  {r with cal := {r.cal with msg_queue := rest}}

/-- The decision taken by one pop of `_getNextMsg`: space proceeds (true),
quit aborts (false), an empty queue gives no decision yet. -/
def msgDecision : List CalMsg → Option (Bool × List CalMsg)
  | CalMsg.space :: rest => some (true, rest)
  | CalMsg.quit :: rest => some (false, rest)
  | [] => none

/-- `_getNextMsg` on the run state: the decision plus the popped state. -/
def setupDecision (r : CalRun) : Option (Bool × CalRun) :=
  Option.map (fun d => (d.1, popMsg r d.2)) (msgDecision r.cal.msg_queue)

/-- `_showSystemSetupMessageScreen`: repeatedly pop the next message; space
returns true, escape (quit) returns false; with an empty queue, pump
messages and yield for one heartbeat, delivering the next batch.  Returns
`none` when the trace is exhausted while still waiting. -/
def setupLoop (t : ℕ) (r : CalRun) (trace : List (List CalEvent)) :
    Option (Bool × CalRun × List (List CalEvent) × ℕ) :=
  match setupDecision r, trace with
  | some d, _ => some (d.1, d.2, trace, t)
  | none, [] => none
  | none, b :: bs => setupLoop (t + 1) (deliverBatch (t + 1) r b) bs

/-- One of the two polling loops of `runCalibration`:
`while not <phase>_ended and not self._should_stop(): gevent.sleep(...)`.
Returns `none` when the trace is exhausted while the loop is still
polling. -/
def pollLoop (ended : CalibState → Bool) (t : ℕ) (r : CalRun)
    (trace : List (List CalEvent)) :
    Option (CalRun × List (List CalEvent) × ℕ) :=
  if ended r.cal || should_stop t r.cal then some (r, trace, t)
  else
    match trace with
    | [] => none
    | b :: bs => pollLoop ended (t + 1) (deliverBatch (t + 1) r b) bs

/-- A single `gevent.sleep(self.IOHUB_HEARTBEAT_INTERVAL)`: one tick passes
and the next batch (if any) is delivered. -/
def yieldOnce (t : ℕ) (r : CalRun) (trace : List (List CalEvent)) :
    ℕ × CalRun × List (List CalEvent) :=
  match trace with
  | [] => (t + 1, r, [])
  | b :: bs => (t + 1, deliverBatch (t + 1) r b, bs)

/-- A request issued to the vendor calibration GUI. -/
inductive CalAction where
  | autotuneRequest
  | calibrationRequest
deriving DecidableEq

/-- The observable outcome of one `runCalibration` run over a finite trace:
the returned value (`none` when the run has not returned within the trace
horizon), the requests issued, the final object state, the tick at which it
returned, and whether each polling loop was force-exited by the timeout
rather than by its phase-ended flag. -/
structure RunResult where
  retval : Option Bool
  actions : List CalAction
  final : CalRun
  finalTime : ℕ
  autotuneForced : Bool := false
  calibrationForced : Bool := false
deriving DecidableEq

/-- `AdhawkPsychopyCalibrationGraphics.runCalibration` over an event trace:
the instruction screen loop, the extra heartbeat sleep, the escape early
return (marking both phases ended and returning the still-false
`_calibration_successful`), the autotune request and polling loop, and —
only if autotune succeeded — the timeout reset, the calibration request and
its polling loop; finally `_calibration_successful` is returned. -/
def runCalibration (trace : List (List CalEvent)) : RunResult :=
  let r0 : CalRun := {cal := {}}
  match setupLoop 0 r0 trace with
  | none => {retval := none, actions := [], final := r0, finalTime := 0}
  | some (res, r1, tr1, t1) =>
    let y := yieldOnce t1 r1 tr1
    let t2 := y.1
    let r2 := y.2.1
    let tr2 := y.2.2
    if !res then
      let rEsc := {r2 with cal :=
        {r2.cal with autotune_ended := true, calibration_ended := true}}
      {retval := some rEsc.cal.calibration_successful, actions := [],
       final := rEsc, finalTime := t2}
    else
      let r3 := issueRequest r2
      match pollLoop (fun c => c.autotune_ended) t2 r3 tr2 with
      | none =>
        {retval := none, actions := [CalAction.autotuneRequest],
         final := r3, finalTime := t2}
      | some (r4, tr4, t4) =>
        let aForced := !r4.cal.autotune_ended
        if r4.cal.autotune_successful then
          let r5 := issueRequest {r4 with cal := {r4.cal with timeout_time_start := 0}}
          match pollLoop (fun c => c.calibration_ended) t4 r5 tr4 with
          | none =>
            {retval := none,
             actions := [CalAction.autotuneRequest, CalAction.calibrationRequest],
             final := r5, finalTime := t4, autotuneForced := aForced}
          | some (r6, _, t6) =>
            {retval := some r6.cal.calibration_successful,
             actions := [CalAction.autotuneRequest, CalAction.calibrationRequest],
             final := r6, finalTime := t6, autotuneForced := aForced,
             calibrationForced := !r6.cal.calibration_ended}
        else
          {retval := some r4.cal.calibration_successful,
           actions := [CalAction.autotuneRequest],
           final := r4, finalTime := t4, autotuneForced := aForced}

/-! ### Stepping lemmas for the calibration loops -/

lemma deliverBatch_nil (now : ℕ) (r : CalRun) : deliverBatch now r [] = r := rfl

lemma deliverBatch_cons (now : ℕ) (r : CalRun) (e : CalEvent) (es : List CalEvent) :
    deliverBatch now r (e :: es) = deliverBatch now (deliverEvent now r e) es := rfl

lemma handleKeyPress_space (now : ℕ) (c : CalibState) :
    handleKeyPress now c "space" = {c with msg_queue := c.msg_queue ++ [CalMsg.space]} := rfl

lemma handleKeyPress_escape (now : ℕ) (c : CalibState) :
    handleKeyPress now c "escape"
      = {c with timeout_time_start := now, msg_queue := c.msg_queue ++ [CalMsg.quit]} := rfl

lemma should_stop_unset (now : ℕ) (c : CalibState) (h : c.timeout_time_start = 0) :
    should_stop now c = false := by
  simp [should_stop, h]

lemma setupLoop_space (t : ℕ) (r : CalRun) (trace : List (List CalEvent))
    (rest : List CalMsg) (h : r.cal.msg_queue = CalMsg.space :: rest) :
    setupLoop t r trace = some (true, popMsg r rest, trace, t) := by
  have hdec : setupDecision r = some (true, popMsg r rest) := by
    simp [setupDecision, h, msgDecision]
  rw [setupLoop.eq_def, hdec]

lemma setupLoop_quit (t : ℕ) (r : CalRun) (trace : List (List CalEvent))
    (rest : List CalMsg) (h : r.cal.msg_queue = CalMsg.quit :: rest) :
    setupLoop t r trace = some (false, popMsg r rest, trace, t) := by
  have hdec : setupDecision r = some (false, popMsg r rest) := by
    simp [setupDecision, h, msgDecision]
  rw [setupLoop.eq_def, hdec]

lemma setupLoop_yield (t : ℕ) (r : CalRun) (b : List CalEvent)
    (bs : List (List CalEvent)) (h : r.cal.msg_queue = []) :
    setupLoop t r (b :: bs) = setupLoop (t + 1) (deliverBatch (t + 1) r b) bs := by
  have hdec : setupDecision r = none := by
    simp [setupDecision, h, msgDecision]
  rw [setupLoop.eq_def, hdec]

lemma setupLoop_empties (k : ℕ) :
    ∀ (t : ℕ) (r : CalRun) (trace : List (List CalEvent)), r.cal.msg_queue = [] →
      setupLoop t r (List.replicate k [] ++ trace) = setupLoop (t + k) r trace := by
  induction k with
  | zero => intro t r trace _; rfl
  | succ k ih =>
    intro t r trace h
    rw [List.replicate_succ, List.cons_append, setupLoop_yield t r _ _ h,
      deliverBatch_nil, ih (t + 1) r trace h]
    congr 1
    omega

lemma pollLoop_exit (ended : CalibState → Bool) (t : ℕ) (r : CalRun)
    (trace : List (List CalEvent)) (h : (ended r.cal || should_stop t r.cal) = true) :
    pollLoop ended t r trace = some (r, trace, t) := by
  rw [pollLoop.eq_def, h]
  simp

lemma pollLoop_yield (ended : CalibState → Bool) (t : ℕ) (r : CalRun)
    (b : List CalEvent) (bs : List (List CalEvent))
    (h : (ended r.cal || should_stop t r.cal) = false) :
    pollLoop ended t r (b :: bs)
      = pollLoop ended (t + 1) (deliverBatch (t + 1) r b) bs := by
  rw [pollLoop.eq_def, h]
  simp

lemma pollLoop_empties (ended : CalibState → Bool) (m : ℕ) :
    ∀ (t : ℕ) (r : CalRun) (trace : List (List CalEvent)),
      ended r.cal = false → r.cal.timeout_time_start = 0 →
      pollLoop ended t r (List.replicate m [] ++ trace) = pollLoop ended (t + m) r trace := by
  induction m with
  | zero => intro t r trace _ _; rfl
  | succ m ih =>
    intro t r trace he ht
    rw [List.replicate_succ, List.cons_append,
      pollLoop_yield ended t r _ _ (by simp [he, should_stop_unset t r.cal ht]),
      deliverBatch_nil, ih (t + 1) r trace he ht]
    congr 1
    omega

/-! ### Escape tracking: the cancellation timestamp is set only by the
escape key -/

/-- Is this event an escape key press? -/
def isEscape : CalEvent → Bool
  | CalEvent.keyPress k => decide (k = "escape")
  | _ => false

/-- No escape key press anywhere in the trace. -/
def noEscape (trace : List (List CalEvent)) : Bool :=
  trace.all (fun b => b.all (fun e => !isEscape e))

lemma popMsg_timeout (r : CalRun) (q : List CalMsg) :
    (popMsg r q).cal.timeout_time_start = r.cal.timeout_time_start := rfl

lemma deliverEvent_timeout (now : ℕ) (r : CalRun) (e : CalEvent)
    (h : isEscape e = false) :
    (deliverEvent now r e).cal.timeout_time_start = r.cal.timeout_time_start := by
  cases e with
  | keyPress k =>
    simp only [isEscape, decide_eq_false_iff_not] at h
    simp only [deliverEvent, handleKeyPress, if_neg h]
    split <;> rfl
  | procedureEnded ack =>
    simp only [deliverEvent]
    unfold handleProcedureEnded
    split <;> split <;> rfl
  | guiResponse ack =>
    simp only [deliverEvent]
    unfold handleCalibrationGuiResponse
    split <;> rfl

lemma deliverBatch_timeout (b : List CalEvent) :
    ∀ (now : ℕ) (r : CalRun), b.all (fun e => !isEscape e) = true →
      (deliverBatch now r b).cal.timeout_time_start = r.cal.timeout_time_start := by
  induction b with
  | nil => intro now r _; rfl
  | cons e es ih =>
    intro now r hall
    rw [List.all_cons, Bool.and_eq_true] at hall
    rw [deliverBatch_cons, ih now (deliverEvent now r e) hall.2,
      deliverEvent_timeout now r e (by simpa using hall.1)]

lemma pollLoop_noEscape (ended : CalibState → Bool) :
    ∀ (trace : List (List CalEvent)) (t : ℕ) (r r' : CalRun)
      (tr' : List (List CalEvent)) (t' : ℕ),
      noEscape trace = true → r.cal.timeout_time_start = 0 →
      pollLoop ended t r trace = some (r', tr', t') →
      ended r'.cal = true ∧ r'.cal.timeout_time_start = 0 ∧ noEscape tr' = true := by
  intro trace
  induction trace with
  | nil =>
    intro t r r' tr' t' hne ht h
    rw [pollLoop.eq_def] at h
    split at h
    · rename_i hc
      simp only [Option.some.injEq, Prod.mk.injEq] at h
      obtain ⟨h1, h2, h3⟩ := h
      subst h1; subst h2; subst h3
      rw [should_stop_unset t r.cal ht, Bool.or_false] at hc
      exact ⟨hc, ht, hne⟩
    · simp at h
  | cons b bs ih =>
    intro t r r' tr' t' hne ht h
    rw [noEscape, List.all_cons, Bool.and_eq_true] at hne
    rw [pollLoop.eq_def] at h
    split at h
    · rename_i hc
      simp only [Option.some.injEq, Prod.mk.injEq] at h
      obtain ⟨h1, h2, h3⟩ := h
      subst h1; subst h2; subst h3
      rw [should_stop_unset t r.cal ht, Bool.or_false] at hc
      refine ⟨hc, ht, ?_⟩
      rw [noEscape, List.all_cons, Bool.and_eq_true]
      exact hne
    · simp only at h
      exact ih (t + 1) (deliverBatch (t + 1) r b) r' tr' t' hne.2
        (by rw [deliverBatch_timeout b (t + 1) r hne.1, ht]) h

lemma setupLoop_noEscape :
    ∀ (trace : List (List CalEvent)) (t : ℕ) (r : CalRun) (res : Bool)
      (r' : CalRun) (tr' : List (List CalEvent)) (t' : ℕ),
      noEscape trace = true → r.cal.timeout_time_start = 0 →
      setupLoop t r trace = some (res, r', tr', t') →
      r'.cal.timeout_time_start = 0 ∧ noEscape tr' = true := by
  intro trace
  induction trace with
  | nil =>
    intro t r res r' tr' t' hne ht h
    rw [setupLoop.eq_def] at h
    split at h
    · rename_i d heq
      simp only [Option.some.injEq, Prod.mk.injEq] at h
      obtain ⟨-, h2, h3, -⟩ := h
      subst h2; subst h3
      simp only [setupDecision, Option.map_eq_some'] at heq
      obtain ⟨a, -, ha⟩ := heq
      rw [← ha]
      exact ⟨ht, hne⟩
    · simp at h
    · rename_i b2 bs2 hdec hlist
      exact absurd hlist (by simp)
  | cons b bs ih =>
    intro t r res r' tr' t' hne ht h
    rw [noEscape, List.all_cons, Bool.and_eq_true] at hne
    rw [setupLoop.eq_def] at h
    split at h
    · rename_i d heq
      simp only [Option.some.injEq, Prod.mk.injEq] at h
      obtain ⟨-, h2, h3, -⟩ := h
      subst h2; subst h3
      simp only [setupDecision, Option.map_eq_some'] at heq
      obtain ⟨a, -, ha⟩ := heq
      rw [← ha]
      refine ⟨ht, ?_⟩
      rw [noEscape, List.all_cons, Bool.and_eq_true]
      exact hne
    · simp at h
    · rename_i b2 bs2 hdec hlist
      injection hlist with hb hbs
      subst hb; subst hbs
      exact ih (t + 1) (deliverBatch (t + 1) r b) res r' tr' t' hne.2
        (by rw [deliverBatch_timeout b (t + 1) r hne.1, ht]) h

lemma issueRequest_cal (r : CalRun) : (issueRequest r).cal = r.cal := rfl

lemma yieldOnce_noEscape (t : ℕ) (r : CalRun) (trace : List (List CalEvent))
    (hne : noEscape trace = true) (ht : r.cal.timeout_time_start = 0) :
    (yieldOnce t r trace).2.1.cal.timeout_time_start = 0
    ∧ noEscape (yieldOnce t r trace).2.2 = true := by
  cases trace with
  | nil => exact ⟨ht, rfl⟩
  | cons b bs =>
    rw [noEscape, List.all_cons, Bool.and_eq_true] at hne
    refine ⟨?_, hne.2⟩
    show (deliverBatch (t + 1) r b).cal.timeout_time_start = 0
    rw [deliverBatch_timeout b (t + 1) r hne.1]
    exact ht

lemma pollLoop_timeout_bound (ended : CalibState → Bool) :
    ∀ (trace : List (List CalEvent)) (t : ℕ) (r : CalRun),
      r.cal.timeout_time_start ≠ 0 → noEscape trace = true →
      t ≤ r.cal.timeout_time_start + timeoutTicks + 1 →
      r.cal.timeout_time_start + timeoutTicks + 1 - t ≤ trace.length →
      ∃ (r' : CalRun) (tr' : List (List CalEvent)) (t' : ℕ),
        pollLoop ended t r trace = some (r', tr', t')
        ∧ t' ≤ r.cal.timeout_time_start + timeoutTicks + 1 := by
  intro trace
  induction trace with
  | nil =>
    intro t r hto hne hle hlen
    simp only [List.length_nil, Nat.le_zero] at hlen
    have hgt : t - r.cal.timeout_time_start > timeoutTicks := by omega
    have hss : should_stop t r.cal = true := by
      rw [should_stop, if_neg hto]
      exact decide_eq_true hgt
    exact ⟨r, [], t, pollLoop_exit ended t r []
      (by rw [hss, Bool.or_true]), hle⟩
  | cons b bs ih =>
    intro t r hto hne hle hlen
    by_cases hc : (ended r.cal || should_stop t r.cal) = true
    · exact ⟨r, b :: bs, t, pollLoop_exit ended t r (b :: bs) hc, hle⟩
    · have hc' : (ended r.cal || should_stop t r.cal) = false := by
        simpa using hc
      have hss : should_stop t r.cal = false := by
        rcases Bool.or_eq_false_iff.mp hc' with ⟨-, h2⟩
        exact h2
      have hnot : ¬(t - r.cal.timeout_time_start > timeoutTicks) := by
        rw [should_stop, if_neg hto] at hss
        exact of_decide_eq_false hss
      have htle : t ≤ r.cal.timeout_time_start + timeoutTicks := by omega
      rw [noEscape, List.all_cons, Bool.and_eq_true] at hne
      have hpre : (deliverBatch (t + 1) r b).cal.timeout_time_start
          = r.cal.timeout_time_start := deliverBatch_timeout b (t + 1) r hne.1
      obtain ⟨r', tr', t', hpoll, hbound⟩ :=
        ih (t + 1) (deliverBatch (t + 1) r b)
          (by rw [hpre]; exact hto) hne.2
          (by rw [hpre]; omega)
          (by rw [hpre]; simp only [List.length_cons] at hlen ⊢; omega)
      refine ⟨r', tr', t', ?_, ?_⟩
      · rw [pollLoop_yield ended t r b bs hc']
        exact hpoll
      · rw [hpre] at hbound
        exact hbound

lemma runCalibration_noEscape_forced (trace : List (List CalEvent))
    (hne : noEscape trace = true) :
    (runCalibration trace).autotuneForced = false
    ∧ (runCalibration trace).calibrationForced = false := by
  cases hs : setupLoop 0 {cal := {}} trace with
  | none =>
    unfold runCalibration
    simp [hs]
  | some v =>
    obtain ⟨res, r1, tr1, t1⟩ := v
    obtain ⟨ht1, hne1⟩ :=
      setupLoop_noEscape trace 0 {cal := {}} res r1 tr1 t1 hne rfl hs
    obtain ⟨ht2, hne2⟩ := yieldOnce_noEscape t1 r1 tr1 hne1 ht1
    unfold runCalibration
    cases res with
    | false => simp [hs]
    | true =>
      cases hp : pollLoop (fun c => c.autotune_ended) (yieldOnce t1 r1 tr1).1
          (issueRequest (yieldOnce t1 r1 tr1).2.1) (yieldOnce t1 r1 tr1).2.2 with
      | none => simp [hs, hp]
      | some w =>
        obtain ⟨r4, tr4, t4⟩ := w
        obtain ⟨hend4, ht4, hne4⟩ := pollLoop_noEscape (fun c => c.autotune_ended)
          (yieldOnce t1 r1 tr1).2.2 (yieldOnce t1 r1 tr1).1
          (issueRequest (yieldOnce t1 r1 tr1).2.1) r4 tr4 t4 hne2 ht2 hp
        cases hsucc : r4.cal.autotune_successful with
        | false => simp [hs, hp, hsucc, hend4]
        | true =>
          cases hp2 : pollLoop (fun c => c.calibration_ended) t4
              (issueRequest {r4 with cal := {r4.cal with timeout_time_start := 0}}) tr4 with
          | none =>
            simp only [hend4, hsucc] at hp2
            simp [hs, hp, hsucc, hp2, hend4]
          | some w2 =>
            obtain ⟨r6, tr6, t6⟩ := w2
            obtain ⟨hend6, -, -⟩ := pollLoop_noEscape (fun c => c.calibration_ended)
              tr4 t4 (issueRequest {r4 with cal := {r4.cal with timeout_time_start := 0}})
              r6 tr6 t6 hne4 rfl hp2
            simp only [hend4, hsucc] at hp2
            simp [hs, hp, hsucc, hp2, hend4, hend6]

/-- The C4 counterexample trace: space at tick 1, the line-94 heartbeat at
tick 2 (after which the autotune request is issued), escape delivered at
tick 3 (arming the cancellation timestamp), then 100 empty heartbeats with
no device acknowledgement, so the horizon ends at tick 103, exactly
`timeoutTicks` ticks (5 s) after the escape. -/
def C4trace : List (List CalEvent) :=
  [[CalEvent.keyPress "space"], [], [CalEvent.keyPress "escape"]]
    ++ List.replicate 100 []

/-- Counterexample for C4 as stated: with the escape armed at tick 3 and no
acknowledgement ever arriving, the run is still inside the autotune polling
loop at tick 103 — when exactly the 5-second grace period has elapsed — so
the loop does not exit within the grace period; it is force-exited one
heartbeat later, at tick 104. -/
theorem C4_counterexample_still_polling_at_grace :
    (runCalibration C4trace).retval = none
    ∧ (runCalibration (C4trace ++ [[]])).retval = some false
    ∧ (runCalibration (C4trace ++ [[]])).autotuneForced = true
    ∧ (runCalibration (C4trace ++ [[]])).final.cal.timeout_time_start = 3
    ∧ (runCalibration (C4trace ++ [[]])).finalTime = 104 := by
  refine ⟨?_, ?_, ?_, ?_, ?_⟩ <;> decide

/-- Claim C4 (amended): the polling loops are force-exited by timeout only
if escape was pressed earlier in that run — `_should_stop` is always false
while the cancellation timestamp is unset, and a run whose trace contains no
escape press never force-exits either loop; and once escape has been pressed
(timestamp `e ≠ 0`) and the device has not acknowledged, the active polling
loop exits by tick `e + timeoutTicks + 1`, i.e. within the 5-second grace
period plus one heartbeat interval, even without any acknowledgement. -/
theorem C4_timeout_arming_and_grace_bound :
    (∀ (now : ℕ) (c : CalibState), c.timeout_time_start = 0 →
      should_stop now c = false)
    ∧ (∀ trace : List (List CalEvent), noEscape trace = true →
        (runCalibration trace).autotuneForced = false
        ∧ (runCalibration trace).calibrationForced = false)
    ∧ (∀ (ended : CalibState → Bool) (t : ℕ) (r : CalRun)
        (trace : List (List CalEvent)),
        r.cal.timeout_time_start ≠ 0 → noEscape trace = true →
        t ≤ r.cal.timeout_time_start + timeoutTicks + 1 →
        r.cal.timeout_time_start + timeoutTicks + 1 - t ≤ trace.length →
        ∃ (r' : CalRun) (tr' : List (List CalEvent)) (t' : ℕ),
          pollLoop ended t r trace = some (r', tr', t')
          ∧ t' ≤ r.cal.timeout_time_start + timeoutTicks + 1) :=
  ⟨fun now c h => should_stop_unset now c h,
   runCalibration_noEscape_forced,
   fun ended t r trace h1 h2 h3 h4 => pollLoop_timeout_bound ended trace t r h1 h2 h3 h4⟩

/-- Witness for C4 at concrete inputs: an unset timestamp never stops; a
trace without escape (a lone success acknowledgement) never force-exits; a
loop entered at tick 5 with the timestamp armed at tick 5 and 101 empty
heartbeats exits by tick 106. -/
theorem C4_witness :
    (({} : CalibState).timeout_time_start = 0 ∧ should_stop 7 {} = false)
    ∧ (noEscape [[CalEvent.procedureEnded 0]] = true
       ∧ (runCalibration [[CalEvent.procedureEnded 0]]).autotuneForced = false)
    ∧ (({cal := {timeout_time_start := 5}} : CalRun).cal.timeout_time_start ≠ 0
       ∧ noEscape (List.replicate 101 ([] : List CalEvent)) = true
       ∧ 5 ≤ ({cal := {timeout_time_start := 5}} : CalRun).cal.timeout_time_start
              + timeoutTicks + 1
       ∧ ({cal := {timeout_time_start := 5}} : CalRun).cal.timeout_time_start
              + timeoutTicks + 1 - 5 ≤ (List.replicate 101 ([] : List CalEvent)).length
       ∧ ∃ (r' : CalRun) (tr' : List (List CalEvent)) (t' : ℕ),
          pollLoop (fun c => c.autotune_ended) 5 {cal := {timeout_time_start := 5}}
              (List.replicate 101 []) = some (r', tr', t')
          ∧ t' ≤ ({cal := {timeout_time_start := 5}} : CalRun).cal.timeout_time_start
              + timeoutTicks + 1) :=
  ⟨⟨rfl, C4_timeout_arming_and_grace_bound.1 7 {} rfl⟩,
   ⟨by decide, (C4_timeout_arming_and_grace_bound.2.1 [[CalEvent.procedureEnded 0]]
      (by decide)).1⟩,
   ⟨by decide, by decide, by decide, by decide,
    C4_timeout_arming_and_grace_bound.2.2 (fun c => c.autotune_ended) 5
      {cal := {timeout_time_start := 5}} (List.replicate 101 [])
      (by decide) (by decide) (by decide) (by decide)⟩⟩

/-! ### C3 scenario traces -/

/-- Escape pressed during the instruction screen after `k` idle heartbeats;
`rest` is whatever would come later. -/
def escTrace (k : ℕ) (rest : List (List CalEvent)) : List (List CalEvent) :=
  List.replicate k [] ++ [CalEvent.keyPress "escape"] :: [] :: rest

/-- Space after `k` idle heartbeats, then after `m` further idle heartbeats
the autotune procedure ends with acknowledgement `f`. -/
def autotuneFailTrace (k m f : ℕ) (rest : List (List CalEvent)) :
    List (List CalEvent) :=
  List.replicate k [] ++ [CalEvent.keyPress "space"] :: [] ::
    (List.replicate m [] ++ [CalEvent.procedureEnded f] :: rest)

/-- Space, then a successful autotune acknowledgement after `m` idle
heartbeats, then a successful calibration acknowledgement after `n` more. -/
def successTrace (k m n : ℕ) (rest : List (List CalEvent)) :
    List (List CalEvent) :=
  List.replicate k [] ++ [CalEvent.keyPress "space"] :: [] ::
    (List.replicate m [] ++ [CalEvent.procedureEnded SUCCESS] ::
      (List.replicate n [] ++ [CalEvent.procedureEnded SUCCESS] :: rest))

lemma runCalibration_escape (k : ℕ) (rest : List (List CalEvent)) :
    (runCalibration (escTrace k rest)).retval = some false
    ∧ (runCalibration (escTrace k rest)).actions = [] := by
  have hsetup : setupLoop 0 {cal := {}} (escTrace k rest)
      = some (false, {cal := {timeout_time_start := k + 1}}, [] :: rest, k + 1) := by
    rw [escTrace, setupLoop_empties k 0 _ _ rfl, Nat.zero_add,
      setupLoop_yield k _ _ _ rfl]
    exact setupLoop_quit (k + 1) _ ([] :: rest) [] rfl
  unfold runCalibration
  simp [hsetup, yieldOnce, deliverBatch_nil]

lemma runCalibration_autotune_fail (k m f : ℕ) (rest : List (List CalEvent))
    (hf : f ≠ SUCCESS) :
    (runCalibration (autotuneFailTrace k m f rest)).retval = some false
    ∧ (runCalibration (autotuneFailTrace k m f rest)).actions
        = [CalAction.autotuneRequest] := by
  have hsetup : setupLoop 0 {cal := {}} (autotuneFailTrace k m f rest)
      = some (true, {cal := {}},
          [] :: (List.replicate m [] ++ [CalEvent.procedureEnded f] :: rest), k + 1) := by
    rw [autotuneFailTrace, setupLoop_empties k 0 _ _ rfl, Nat.zero_add,
      setupLoop_yield k _ _ _ rfl]
    exact setupLoop_space (k + 1) _ _ [] rfl
  have hstep : deliverBatch (k + 1 + 1 + m + 1)
      {cal := {}, procPending := true, guiPending := true}
      [CalEvent.procedureEnded f]
      = {cal := {autotune_ended := true}, guiPending := true} := by
    rw [deliverBatch_cons, deliverBatch_nil]
    simp [deliverEvent, handleProcedureEnded, hf]
  have hpoll : pollLoop (fun c => c.autotune_ended) (k + 1 + 1)
      {cal := {}, procPending := true, guiPending := true}
      (List.replicate m [] ++ [CalEvent.procedureEnded f] :: rest)
      = some ({cal := {autotune_ended := true}, guiPending := true}, rest,
          k + 1 + 1 + m + 1) := by
    rw [pollLoop_empties _ m _ _ _ rfl rfl,
      pollLoop_yield _ _ _ _ _ (by simp [should_stop]), hstep]
    exact pollLoop_exit _ _ _ _ (by simp)
  unfold runCalibration
  simp [hsetup, yieldOnce, deliverBatch_nil, issueRequest, hpoll]

lemma runCalibration_success (k m n : ℕ) (rest : List (List CalEvent)) :
    (runCalibration (successTrace k m n rest)).retval = some true
    ∧ (runCalibration (successTrace k m n rest)).actions
        = [CalAction.autotuneRequest, CalAction.calibrationRequest] := by
  have hsetup : setupLoop 0 {cal := {}} (successTrace k m n rest)
      = some (true, {cal := {}},
          [] :: (List.replicate m [] ++ [CalEvent.procedureEnded SUCCESS] ::
            (List.replicate n [] ++ [CalEvent.procedureEnded SUCCESS] :: rest)), k + 1) := by
    rw [successTrace, setupLoop_empties k 0 _ _ rfl, Nat.zero_add,
      setupLoop_yield k _ _ _ rfl]
    exact setupLoop_space (k + 1) _ _ [] rfl
  have hstep1 : deliverBatch (k + 1 + 1 + m + 1)
      {cal := {}, procPending := true, guiPending := true}
      [CalEvent.procedureEnded SUCCESS]
      = ({cal := {autotune_ended := true, autotune_successful := true}, guiPending := true} : CalRun) := by
    rw [deliverBatch_cons, deliverBatch_nil]
    simp [deliverEvent, handleProcedureEnded]
  have hpoll1 : pollLoop (fun c => c.autotune_ended) (k + 1 + 1)
      {cal := {}, procPending := true, guiPending := true}
      (List.replicate m [] ++ [CalEvent.procedureEnded SUCCESS] ::
        (List.replicate n [] ++ [CalEvent.procedureEnded SUCCESS] :: rest))
      = some (({cal := {autotune_ended := true, autotune_successful := true}, guiPending := true} : CalRun),
          List.replicate n [] ++ [CalEvent.procedureEnded SUCCESS] :: rest,
          k + 1 + 1 + m + 1) := by
    rw [pollLoop_empties _ m _ _ _ rfl rfl,
      pollLoop_yield _ _ _ _ _ (by simp [should_stop]), hstep1]
    exact pollLoop_exit _ _ _ _ (by simp)
  have hstep2 : deliverBatch (k + 1 + 1 + m + 1 + n + 1)
      {cal := {autotune_ended := true, autotune_successful := true}, procPending := true, guiPending := true}
      [CalEvent.procedureEnded SUCCESS]
      = ({cal := {autotune_ended := true, autotune_successful := true, calibration_ended := true, calibration_successful := true}, guiPending := true} : CalRun) := by
    rw [deliverBatch_cons, deliverBatch_nil]
    simp [deliverEvent, handleProcedureEnded]
  have hpoll2 : pollLoop (fun c => c.calibration_ended) (k + 1 + 1 + m + 1)
      {cal := {autotune_ended := true, autotune_successful := true}, procPending := true, guiPending := true}
      (List.replicate n [] ++ [CalEvent.procedureEnded SUCCESS] :: rest)
      = some (({cal := {autotune_ended := true, autotune_successful := true, calibration_ended := true, calibration_successful := true}, guiPending := true} : CalRun),
          rest, k + 1 + 1 + m + 1 + n + 1) := by
    rw [pollLoop_empties _ n _ _ _ rfl rfl,
      pollLoop_yield _ _ _ _ _ (by simp [should_stop]), hstep2]
    exact pollLoop_exit _ _ _ _ (by simp)
  unfold runCalibration
  simp [hsetup, yieldOnce, deliverBatch_nil, issueRequest, hpoll1, hpoll2]

/-! ### Protocol invariants: on traces a real device can produce
(`protocolOk`), `runCalibration` returns true only when both phases
succeeded -/

lemma handleKeyPress_shape (now : ℕ) (c : CalibState) (k : String) :
    ∃ (t0 : ℕ) (q0 : List CalMsg),
      handleKeyPress now c k = {c with timeout_time_start := t0, msg_queue := q0} := by
  unfold handleKeyPress
  split
  · exact ⟨c.timeout_time_start, c.msg_queue ++ [CalMsg.space], rfl⟩
  split
  · exact ⟨now, c.msg_queue ++ [CalMsg.quit], rfl⟩
  · exact ⟨c.timeout_time_start, c.msg_queue, rfl⟩

/-- Protocol invariant before any request: while the protocol ghost flag
still holds, no device response has been processed, so all four phase flags
are still clear and nothing is pending. -/
def PreReq (r : CalRun) : Prop :=
  r.protocolOk = true →
    (r.procPending = false ∧ r.guiPending = false
     ∧ r.cal.autotune_ended = false ∧ r.cal.calibration_ended = false
     ∧ r.cal.autotune_successful = false ∧ r.cal.calibration_successful = false)

/-- Protocol invariant from the autotune request onwards: on
protocol-respecting traces, calibration success implies autotune success,
and a pending `PROCEDURE_ENDED` while the autotune phase is already ended
implies the autotune phase succeeded. -/
def PostReq (r : CalRun) : Prop :=
  r.protocolOk = true →
    ((r.cal.calibration_successful = true → r.cal.autotune_successful = true)
     ∧ (r.cal.autotune_ended = true → r.procPending = true →
        r.cal.autotune_successful = true))

lemma PreReq_init : PreReq {cal := {}} :=
  fun _ => ⟨rfl, rfl, rfl, rfl, rfl, rfl⟩

lemma deliverEvent_PreReq (now : ℕ) (r : CalRun) (e : CalEvent) (h : PreReq r) :
    PreReq (deliverEvent now r e) := by
  cases e with
  | keyPress k =>
    obtain ⟨t0, q0, hk⟩ := handleKeyPress_shape now r.cal k
    intro hok
    simp only [deliverEvent, hk] at hok ⊢
    exact h hok
  | procedureEnded ack =>
    intro hok
    simp only [deliverEvent] at hok
    rw [Bool.and_eq_true] at hok
    obtain ⟨ho, hpp⟩ := hok
    exact absurd hpp (by simp [(h ho).1])
  | guiResponse ack =>
    intro hok
    simp only [deliverEvent] at hok
    rw [Bool.and_eq_true] at hok
    obtain ⟨ho, hgp⟩ := hok
    exact absurd hgp (by simp [(h ho).2.1])

lemma deliverEvent_PostReq (now : ℕ) (r : CalRun) (e : CalEvent) (h : PostReq r) :
    PostReq (deliverEvent now r e) := by
  cases e with
  | keyPress k =>
    obtain ⟨t0, q0, hk⟩ := handleKeyPress_shape now r.cal k
    intro hok
    simp only [deliverEvent, hk] at hok ⊢
    exact h hok
  | procedureEnded ack =>
    intro hok
    simp only [deliverEvent] at hok
    rw [Bool.and_eq_true] at hok
    obtain ⟨ho, hpp⟩ := hok
    obtain ⟨hA, hB⟩ := h ho
    constructor
    · show (handleProcedureEnded r.cal ack).calibration_successful = true →
        (handleProcedureEnded r.cal ack).autotune_successful = true
      unfold handleProcedureEnded
      cases hae : r.cal.autotune_ended with
      | false =>
        simp only [hae, Bool.not_false, if_true]
        split
        · intro hcs; exact hA hcs
        · intro _; rfl
      | true =>
        simp only [hae, Bool.not_true, Bool.false_eq_true, if_false]
        split
        · intro _; exact hB hae hpp
        · intro _; exact hB hae hpp
    · intro _ habs
      simp only [deliverEvent] at habs
      exact absurd habs (by simp)
  | guiResponse ack =>
    intro hok
    simp only [deliverEvent] at hok
    rw [Bool.and_eq_true] at hok
    obtain ⟨ho, hgp⟩ := hok
    obtain ⟨hA, hB⟩ := h ho
    constructor
    · show (handleCalibrationGuiResponse r.cal ack).calibration_successful = true →
        (handleCalibrationGuiResponse r.cal ack).autotune_successful = true
      unfold handleCalibrationGuiResponse
      split
      · intro hcs; exact hA hcs
      · intro hcs; exact hA hcs
    · show (handleCalibrationGuiResponse r.cal ack).autotune_ended = true →
        (r.procPending && decide (ack = SUCCESS)) = true →
        (handleCalibrationGuiResponse r.cal ack).autotune_successful = true
      by_cases hack : ack = SUCCESS
      · intro hae hpp'
        rw [Bool.and_eq_true] at hpp'
        unfold handleCalibrationGuiResponse at hae ⊢
        rw [if_neg (by simp [hack])] at hae ⊢
        exact hB hae hpp'.1
      · intro _ hpp'
        rw [Bool.and_eq_true] at hpp'
        exact absurd (of_decide_eq_true hpp'.2) hack

lemma deliverBatch_pres (P : CalRun → Prop)
    (hstep : ∀ (now : ℕ) (r : CalRun) (e : CalEvent), P r → P (deliverEvent now r e)) :
    ∀ (b : List CalEvent) (now : ℕ) (r : CalRun), P r → P (deliverBatch now r b) := by
  intro b
  induction b with
  | nil => intro now r h; exact h
  | cons e es ih =>
    intro now r h
    rw [deliverBatch_cons]
    exact ih now _ (hstep now r e h)

lemma setupLoop_inv (P : CalRun → Prop)
    (hstep : ∀ (now : ℕ) (r : CalRun) (e : CalEvent), P r → P (deliverEvent now r e))
    (hpop : ∀ (r : CalRun) (q : List CalMsg), P r → P (popMsg r q)) :
    ∀ (trace : List (List CalEvent)) (t : ℕ) (r : CalRun) (res : Bool)
      (r' : CalRun) (tr' : List (List CalEvent)) (t' : ℕ),
      P r → setupLoop t r trace = some (res, r', tr', t') → P r' := by
  intro trace
  induction trace with
  | nil =>
    intro t r res r' tr' t' hP h
    rw [setupLoop.eq_def] at h
    split at h
    · rename_i d heq
      simp only [Option.some.injEq, Prod.mk.injEq] at h
      obtain ⟨-, h2, -, -⟩ := h
      subst h2
      simp only [setupDecision, Option.map_eq_some'] at heq
      obtain ⟨a, -, ha⟩ := heq
      rw [← ha]
      exact hpop r a.2 hP
    · simp at h
    · rename_i b2 bs2 hdec hlist
      exact absurd hlist (by simp)
  | cons b bs ih =>
    intro t r res r' tr' t' hP h
    rw [setupLoop.eq_def] at h
    split at h
    · rename_i d heq
      simp only [Option.some.injEq, Prod.mk.injEq] at h
      obtain ⟨-, h2, -, -⟩ := h
      subst h2
      simp only [setupDecision, Option.map_eq_some'] at heq
      obtain ⟨a, -, ha⟩ := heq
      rw [← ha]
      exact hpop r a.2 hP
    · simp at h
    · rename_i b2 bs2 hdec hlist
      injection hlist with hb hbs
      subst hb; subst hbs
      exact ih (t + 1) (deliverBatch (t + 1) r b) res r' tr' t'
        (deliverBatch_pres P hstep b (t + 1) r hP) h

lemma pollLoop_inv (P : CalRun → Prop)
    (hstep : ∀ (now : ℕ) (r : CalRun) (e : CalEvent), P r → P (deliverEvent now r e))
    (ended : CalibState → Bool) :
    ∀ (trace : List (List CalEvent)) (t : ℕ) (r r' : CalRun)
      (tr' : List (List CalEvent)) (t' : ℕ),
      P r → pollLoop ended t r trace = some (r', tr', t') → P r' := by
  intro trace
  induction trace with
  | nil =>
    intro t r r' tr' t' hP h
    rw [pollLoop.eq_def] at h
    split at h
    · simp only [Option.some.injEq, Prod.mk.injEq] at h
      obtain ⟨h1, -, -⟩ := h
      subst h1
      exact hP
    · simp at h
  | cons b bs ih =>
    intro t r r' tr' t' hP h
    rw [pollLoop.eq_def] at h
    split at h
    · simp only [Option.some.injEq, Prod.mk.injEq] at h
      obtain ⟨h1, -, -⟩ := h
      subst h1
      exact hP
    · simp only at h
      exact ih (t + 1) (deliverBatch (t + 1) r b) r' tr' t'
        (deliverBatch_pres P hstep b (t + 1) r hP) h

lemma yieldOnce_pres (P : CalRun → Prop)
    (hstep : ∀ (now : ℕ) (r : CalRun) (e : CalEvent), P r → P (deliverEvent now r e))
    (t : ℕ) (r : CalRun) (trace : List (List CalEvent)) (h : P r) :
    P (yieldOnce t r trace).2.1 := by
  cases trace with
  | nil => exact h
  | cons b bs => exact deliverBatch_pres P hstep b (t + 1) r h

lemma PostReq_of_PreReq_issue (r : CalRun) (h : PreReq r) :
    PostReq (issueRequest r) := by
  intro hok
  obtain ⟨-, -, hae, -, -, hcs⟩ := h hok
  constructor
  · intro hc
    exact absurd hc (by simp [show (issueRequest r).cal = r.cal from rfl, hcs])
  · intro hae' _
    exact absurd hae' (by simp [show (issueRequest r).cal = r.cal from rfl, hae])

lemma PostReq_calib_issue (r4 : CalRun) (hsucc : r4.cal.autotune_successful = true) :
    PostReq (issueRequest {r4 with cal := {r4.cal with timeout_time_start := 0}}) := by
  intro _
  exact ⟨fun _ => hsucc, fun _ _ => hsucc⟩

lemma runCalibration_protocol_success (trace : List (List CalEvent))
    (hok : (runCalibration trace).final.protocolOk = true)
    (hret : (runCalibration trace).retval = some true) :
    (runCalibration trace).final.cal.autotune_successful = true
    ∧ (runCalibration trace).final.cal.calibration_successful = true
    ∧ (runCalibration trace).actions
        = [CalAction.autotuneRequest, CalAction.calibrationRequest] := by
  cases hs : setupLoop 0 {cal := {}} trace with
  | none =>
    unfold runCalibration at hret
    simp [hs] at hret
  | some v =>
    obtain ⟨res, r1, tr1, t1⟩ := v
    have hP1 : PreReq r1 :=
      setupLoop_inv PreReq deliverEvent_PreReq (fun r q h => h) trace 0 {cal := {}}
        res r1 tr1 t1 PreReq_init hs
    have hP2 : PreReq (yieldOnce t1 r1 tr1).2.1 :=
      yieldOnce_pres PreReq deliverEvent_PreReq t1 r1 tr1 hP1
    unfold runCalibration at hok hret ⊢
    cases res with
    | false =>
      simp only [hs] at hok hret
      simp at hok hret
      exact absurd hret (by simp [(hP2 hok).2.2.2.2.2])
    | true =>
      cases hp : pollLoop (fun c => c.autotune_ended) (yieldOnce t1 r1 tr1).1
          (issueRequest (yieldOnce t1 r1 tr1).2.1) (yieldOnce t1 r1 tr1).2.2 with
      | none =>
        simp [hs, hp] at hret
      | some w =>
        obtain ⟨r4, tr4, t4⟩ := w
        have hP4 : PostReq r4 :=
          pollLoop_inv PostReq deliverEvent_PostReq (fun c => c.autotune_ended)
            (yieldOnce t1 r1 tr1).2.2 (yieldOnce t1 r1 tr1).1
            (issueRequest (yieldOnce t1 r1 tr1).2.1) r4 tr4 t4
            (PostReq_of_PreReq_issue _ hP2) hp
        cases hsucc : r4.cal.autotune_successful with
        | false =>
          simp [hs, hp, hsucc] at hok hret
          have hc := (hP4 hok).1 hret
          exact absurd hc (by simp [hsucc])
        | true =>
          cases hp2 : pollLoop (fun c => c.calibration_ended) t4
              (issueRequest {r4 with cal := {r4.cal with timeout_time_start := 0}}) tr4 with
          | none =>
            simp only [hsucc] at hp2
            simp [hs, hp, hsucc, hp2] at hret
          | some w2 =>
            obtain ⟨r6, tr6, t6⟩ := w2
            have hP6 : PostReq r6 :=
              pollLoop_inv PostReq deliverEvent_PostReq (fun c => c.calibration_ended)
                tr4 t4 (issueRequest {r4 with cal := {r4.cal with timeout_time_start := 0}})
                r6 tr6 t6 (PostReq_calib_issue r4 hsucc) hp2
            simp only [hsucc] at hp2
            simp only [hs] at hok hret ⊢
            simp [hp, hsucc, hp2] at hok hret ⊢
            exact ⟨(hP6 hok).1 hret, hret⟩

/-- Claim C3: pressing escape during the instruction screen makes
`runCalibration` return false with neither the autotune nor the calibration
request issued; after space, a non-success autotune acknowledgement makes it
return false without issuing the start-calibration request; a run in which
both phases end with a SUCCESS acknowledgement returns true; and on every
protocol-respecting trace (the `protocolOk` ghost flag, which rules out
device responses that were never requested), a run that returns true had
both the autotune and the calibration phase complete with success. -/
theorem C3_runCalibration_success_conditions :
    (∀ (k : ℕ) (rest : List (List CalEvent)),
      (runCalibration (escTrace k rest)).retval = some false
      ∧ (runCalibration (escTrace k rest)).actions = [])
    ∧ (∀ (k m f : ℕ) (rest : List (List CalEvent)), f ≠ SUCCESS →
      (runCalibration (autotuneFailTrace k m f rest)).retval = some false
      ∧ (runCalibration (autotuneFailTrace k m f rest)).actions
          = [CalAction.autotuneRequest])
    ∧ (∀ (k m n : ℕ) (rest : List (List CalEvent)),
      (runCalibration (successTrace k m n rest)).retval = some true
      ∧ (runCalibration (successTrace k m n rest)).actions
          = [CalAction.autotuneRequest, CalAction.calibrationRequest])
    ∧ (∀ trace : List (List CalEvent),
      (runCalibration trace).final.protocolOk = true →
      (runCalibration trace).retval = some true →
      (runCalibration trace).final.cal.autotune_successful = true
      ∧ (runCalibration trace).final.cal.calibration_successful = true
      ∧ (runCalibration trace).actions
          = [CalAction.autotuneRequest, CalAction.calibrationRequest]) :=
  ⟨runCalibration_escape, runCalibration_autotune_fail, runCalibration_success,
   runCalibration_protocol_success⟩

/-- Witness for C3: the autotune-failure scenario at ack 1 with no delays,
and the full success scenario, which is protocol-respecting and returns
true with both phases succeeded. -/
theorem C3_witness :
    ((1 : ℕ) ≠ SUCCESS
      ∧ (runCalibration (autotuneFailTrace 0 0 1 [])).retval = some false
      ∧ (runCalibration (autotuneFailTrace 0 0 1 [])).actions
          = [CalAction.autotuneRequest])
    ∧ ((runCalibration (successTrace 0 0 0 [])).final.protocolOk = true
      ∧ (runCalibration (successTrace 0 0 0 [])).retval = some true
      ∧ (runCalibration (successTrace 0 0 0 [])).final.cal.autotune_successful = true
      ∧ (runCalibration (successTrace 0 0 0 [])).final.cal.calibration_successful = true
      ∧ (runCalibration (successTrace 0 0 0 [])).actions
          = [CalAction.autotuneRequest, CalAction.calibrationRequest]) :=
  ⟨⟨by decide,
    (C3_runCalibration_success_conditions.2.1 0 0 1 [] (by decide)).1,
    (C3_runCalibration_success_conditions.2.1 0 0 1 [] (by decide)).2⟩,
   ⟨by decide, by decide,
    (C3_runCalibration_success_conditions.2.2.2 (successTrace 0 0 0 [])
      (by decide) (by decide)).1,
    (C3_runCalibration_success_conditions.2.2.2 (successTrace 0 0 0 [])
      (by decide) (by decide)).2.1,
    (C3_runCalibration_success_conditions.2.2.2 (successTrace 0 0 0 [])
      (by decide) (by decide)).2.2⟩⟩

end Adhawk
